import Mathlib

/-!
Shallow embedding of the last-mile-delivery sizing/scheduling solver
(`src/solver/solver.py`): instance-data derivation, the four MILP model
variants (base, fixed, flex, partflex) and results extraction.

Python floats are modelled as rationals, Python exceptions as explicit
`Except`/`Option` results.  Gurobi variables are modelled by their
declaration metadata (`VarSpec`) and by satisfaction predicates over
assignments of rational values to the variables.
-/

namespace LMD

/-- Fixed constant from line 12 of the source (parcels per courier per period). -/
def CAPACITY : ℚ := 5

/-- Fixed constant from line 13 of the source. -/
def COST_PER_COURIER_AND_PERIOD : ℚ := 1

/-- Fixed constant from line 14 of the source. -/
def COST_PER_PARCEL_AND_PERIOD : ℚ := COST_PER_COURIER_AND_PERIOD / CAPACITY

/-- Python `int()` applied to a real value: truncation toward zero. -/
def pyInt (q : ℚ) : ℤ := if 0 ≤ q then ⌊q⌋ else ⌈q⌉

/-- `np.mean` of a list of numbers (sum divided by length). -/
def npMean (l : List ℚ) : ℚ := l.sum / (l.length : ℚ)

/-- The Python exceptions that the embedded code can raise. -/
inductive PyErr
  | keyError
  | attributeError
  | typeError
  | notImplemented
  | assertionError
deriving DecidableEq, Inhabited

/-- The four model variants selectable via `--model`. -/
inductive ModelKind
  | base
  | fixed
  | flex
  | partflex
deriving DecidableEq, Inhabited

/-- CLI arguments (`argparse.Namespace`).  `max_n_shifts` is declared optional
in the parser, so when the flag is absent the attribute holds Python `None`,
modelled as `none`. -/
structure Args where
  model : ModelKind
  regional_multiplier : ℚ
  global_multiplier : ℚ
  outsourcing_cost_multiplier : ℚ
  max_n_shifts : Option Int
deriving Inhabited

/-- Keyword arguments of the programmatic entry point (`args=None`).
`max_n_shifts = none` models the key being absent from `kwargs`
(so reading it raises `KeyError`). -/
structure Kwargs where
  model : ModelKind
  regional_multiplier : ℚ
  global_multiplier : ℚ
  outsourcing_cost_multiplier : ℚ
  max_n_shifts : Option Int
deriving Inhabited

/-- The loaded JSON instance after `__load_instance` and the dict-building
loops of `__compute_data`: geography (region id with its area ids, in file
order), period and scenario counts, and the `sdemand` / `srequired` tables
keyed by (scenario, area, period). -/
structure RawInstance where
  dregions : List (Nat × List Nat)
  n_periods : Nat
  n_scenarios : Nat
  sdemand : Nat → Nat → Nat → ℚ
  srequired : Nat → Nat → Nat → ℚ
deriving Inhabited

/-- The derived per-run data of class `Instance` after `__compute_data`.
The attributes `max_n_shift` / `max_n_shifts` use `Option (Option Int)`:
`none` means the Python attribute was never assigned (reading it raises
`AttributeError`), `some none` means it was assigned Python `None`, and
`some (some v)` means it was assigned the integer `v`. -/
structure InstanceData where
  reg_multiplier : ℚ
  glb_multiplier : ℚ
  outsourcing_cost_multiplier : ℚ
  outsourcing_cost : ℚ
  model : ModelKind
  dregions : List (Nat × List Nat)
  n_periods : Nat
  n_scenarios : Nat
  sdemand : Nat → Nat → Nat → ℚ
  srequired : Nat → Nat → Nat → ℚ
  ub_reg : Nat → ℤ
  ub_global : ℤ
  shifts : List (List Nat)
  max_n_shift : Option (Option Int)
  max_n_shifts : Option (Option Int)
deriving Inhabited

/-- The list `self.regions` (line 80): region ids in file order. -/
def InstanceData.regions (i : InstanceData) : List Nat :=
  i.dregions.map Prod.fst

/-- The list `self.areas` (line 81): all area ids, region by region. -/
def InstanceData.areas (i : InstanceData) : List Nat :=
  i.dregions.flatMap Prod.snd

/-- The dict `self.reg_areas` (lines 82-84) looked up at a region id.
For the instances the claims quantify over, region ids are distinct, so
dict lookup coincides with searching the geography list. -/
def regAreasOf (dregions : List (Nat × List Nat)) (r : Nat) : List Nat :=
  ((dregions.find? (fun q => q.1 == r)).map Prod.snd).getD []

/-- The dict `self.reg_areas` as an accessor on the instance. -/
def InstanceData.reg_areas (i : InstanceData) (r : Nat) : List Nat :=
  regAreasOf i.dregions r

/-- The dict `self.area_regs` (lines 85-87): the first region whose area list
contains the given area. -/
def InstanceData.area_regs (i : InstanceData) (a : Nat) : Nat :=
  (i.regions.filter (fun r => (i.reg_areas r).contains a)).headI

/-- Mean over scenarios of required couriers for one (area, period)
(`mhat1`, lines 131-135). -/
def mhat1 (req : Nat → Nat → Nat → ℚ) (nS a θ : Nat) : ℚ :=
  npMean ((List.range nS).map (fun s => req s a θ))

/-- Mean over periods of `mhat1` for one area (`mhat2`, lines 136-140). -/
def mhat2 (req : Nat → Nat → Nat → ℚ) (nS nP a : Nat) : ℚ :=
  npMean ((List.range nP).map (fun θ => mhat1 req nS a θ))

/-- Regional upper bound (lines 141-144): truncation of the regional
multiplier times the sum of `mhat2` over the region's areas. -/
def ubRegOf (req : Nat → Nat → Nat → ℚ) (nS nP : Nat) (rm : ℚ) (ras : List Nat) : ℤ :=
  pyInt (rm * (ras.map (fun a => mhat2 req nS nP a)).sum)

/-- Global upper bound (line 145): truncation of the global multiplier times
the sum of the regional bounds.  It is a function of those two inputs only. -/
def ubGlobalOf (gm : ℚ) (ubs : List ℤ) : ℤ :=
  pyInt (gm * (ubs.map (fun z : ℤ => (z : ℚ))).sum)

/-- `Instance.__get_shifts` (lines 119-128): two shifts of four periods when
`n_periods == 8`, a `NotImplementedError` otherwise; the partition is then
asserted to cover the period range. -/
def getShifts (nP : Nat) : Except PyErr (List (List Nat)) :=
  if nP = 8 then
    let shifts := [List.range 4, List.range' 4 4]
    if shifts.flatten = List.range nP then Except.ok shifts
    else Except.error PyErr.assertionError
  else Except.error PyErr.notImplemented

/-- The model selected (line 64 or 69). -/
def modelOf (args : Option Args) (kw : Kwargs) : ModelKind :=
  match args with
  | none => kw.model
  | some a => a.model

/-- The regional multiplier (line 61 or 66). -/
def rmOf (args : Option Args) (kw : Kwargs) : ℚ :=
  match args with
  | none => kw.regional_multiplier
  | some a => a.regional_multiplier

/-- The global multiplier (line 62 or 67). -/
def gmOf (args : Option Args) (kw : Kwargs) : ℚ :=
  match args with
  | none => kw.global_multiplier
  | some a => a.global_multiplier

/-- The outsourcing cost multiplier (line 63 or 68). -/
def ocmOf (args : Option Args) (kw : Kwargs) : ℚ :=
  match args with
  | none => kw.outsourcing_cost_multiplier
  | some a => a.outsourcing_cost_multiplier

/-- Lines 106-110 of `__compute_data`: for the partflex model, the programmatic
path reads `kwargs['max_n_shifts']` (a `KeyError` when absent) and stores it
under the misspelled attribute `max_n_shift`, while the CLI path stores
`args.max_n_shifts` (Python `None` when the flag was omitted) under
`max_n_shifts`.  The pair is (`max_n_shift`, `max_n_shifts`). -/
def mnsOf (args : Option Args) (kw : Kwargs) (m : ModelKind) :
    Except PyErr (Option (Option Int) × Option (Option Int)) :=
  if m = ModelKind.partflex then
    match args with
    | none =>
      match kw.max_n_shifts with
      | none => Except.error PyErr.keyError
      | some v => Except.ok (some (some v), none)
    | some a => Except.ok (none, some a.max_n_shifts)
  else Except.ok (none, none)

/-- The instance record assembled by `__compute_data` once neither the shift
derivation nor the partflex parameter lookup has raised: multipliers and model
kind copied from the invocation, outsourcing unit cost (line 71), geography,
demand tables, the two derived bounds (lines 130-147) and the shift-cap
attribute pair. -/
def mkInstanceData (args : Option Args) (kw : Kwargs) (raw : RawInstance)
    (shifts : List (List Nat)) (mns : Option (Option Int) × Option (Option Int)) :
    InstanceData :=
      {
        reg_multiplier := rmOf args kw
        glb_multiplier := gmOf args kw
        outsourcing_cost_multiplier := ocmOf args kw
        outsourcing_cost := COST_PER_COURIER_AND_PERIOD * ocmOf args kw
        model := modelOf args kw
        dregions := raw.dregions
        n_periods := raw.n_periods
        n_scenarios := raw.n_scenarios
        sdemand := raw.sdemand
        srequired := raw.srequired
        ub_reg := fun r =>
          ubRegOf raw.srequired raw.n_scenarios raw.n_periods (rmOf args kw)
            (regAreasOf raw.dregions r)
        ub_global :=
          ubGlobalOf (gmOf args kw)
            ((raw.dregions.map Prod.fst).map (fun r =>
              ubRegOf raw.srequired raw.n_scenarios raw.n_periods (rmOf args kw)
                (regAreasOf raw.dregions r)))
        shifts := shifts
        max_n_shift := mns.1
        max_n_shifts := mns.2
      }

/-- `Instance.__compute_data` (lines 59-113): copies the multipliers and the
model kind, derives the outsourcing unit cost, the geography lists, the
bounds, the shift partition (which raises first, line 104) and then the
partflex-only shift-cap attribute (lines 106-110). -/
def Instance.computeData (args : Option Args) (kw : Kwargs) (raw : RawInstance) :
    Except PyErr InstanceData :=
  match getShifts raw.n_periods with
  | Except.error e => Except.error e
  | Except.ok shifts =>
    match mnsOf args kw (modelOf args kw) with
    | Except.error e => Except.error e
    | Except.ok mns => Except.ok (mkInstanceData args kw raw shifts mns)

/-- Declaration metadata of a Gurobi decision variable: its type, lower bound
and objective coefficient. -/
inductive VType
  | integer
  | continuous
  | binary
deriving DecidableEq

/-- Variable-declaration record: `vtype`, lower bound, objective coefficient. -/
structure VarSpec where
  vtype : VType
  lb : ℚ
  obj : ℚ
deriving DecidableEq

/-- The `x` variables of `__build_base_model` (line 168): one integer variable
per (area, period), lower bound 0, objective coefficient 1, generated area by
area and period by period as `addVars` does. -/
def baseXVars (i : InstanceData) : List ((Nat × Nat) × VarSpec) :=
  i.areas.flatMap (fun a =>
    (List.range i.n_periods).map (fun θ =>
      ((a, θ), ⟨VType.integer, 0, 1⟩)))

/-- The `omega` variables of `__build_base_model` (line 169): one continuous
variable per (area, period, scenario), Gurobi default lower bound 0, objective
coefficient `1 / n_scenarios`. -/
def baseOmegaVars (i : InstanceData) : List ((Nat × Nat × Nat) × VarSpec) :=
  i.areas.flatMap (fun a =>
    (List.range i.n_periods).flatMap (fun θ =>
      (List.range i.n_scenarios).map (fun s =>
        ((a, θ, s), ⟨VType.continuous, 0, 1 / (i.n_scenarios : ℚ)⟩))))

/-- Coefficient data of one `set_omega` constraint (lines 182-188):
`req * omega ≥ (req - x) * dem * cost`. -/
structure OmegaConstr where
  req : ℚ
  dem : ℚ
  cost : ℚ
deriving DecidableEq

/-- Satisfaction of one `set_omega` constraint by values of `x[a,θ]` and
`omega[a,θ,s]`. -/
def OmegaConstr.holds (c : OmegaConstr) (xv ωv : ℚ) : Prop :=
  c.req * ωv ≥ (c.req - xv) * c.dem * c.cost

/-- The `set_omega` constraint family of `__build_base_model` (lines 182-188),
one constraint per (area, period, scenario). -/
def setOmegaConstrs (i : InstanceData) : List ((Nat × Nat × Nat) × OmegaConstr) :=
  i.areas.flatMap (fun a =>
    (List.range i.n_periods).flatMap (fun θ =>
      (List.range i.n_scenarios).map (fun s =>
        ((a, θ, s), ⟨i.srequired s a θ, i.sdemand s a θ, i.outsourcing_cost⟩))))

/-- Sum of `x` over one region's areas at one period
(`sum(self.x[a, theta] for a in self.i.reg_areas[region])`). -/
def regTotal (i : InstanceData) (x : Nat → Nat → ℚ) (r θ : Nat) : ℚ :=
  ((i.reg_areas r).map (fun a => x a θ)).sum

/-- Sum of `x` over all areas at one period (`self.x.sum('*', theta)`). -/
def allTotal (i : InstanceData) (x : Nat → Nat → ℚ) (θ : Nat) : ℚ :=
  (i.areas.map (fun a => x a θ)).sum

/-- `self.y.sum('*', a, theta)`: movement into area `a` at period `θ`, summed
over the `y` index set (ordered pairs of distinct areas of the same region,
lines 190-198). -/
def ySumIn (i : InstanceData) (y : Nat → Nat → Nat → ℚ) (a θ : Nat) : ℚ :=
  ((i.areas.filter (fun a2 => !(a2 == a) && (i.area_regs a2 == i.area_regs a))).map
    (fun a2 => y a2 a θ)).sum

/-- `self.y.sum(a, '*', theta)`: movement out of area `a` at period `θ`. -/
def ySumOut (i : InstanceData) (y : Nat → Nat → Nat → ℚ) (a θ : Nat) : ℚ :=
  ((i.areas.filter (fun a2 => !(a2 == a) && (i.area_regs a2 == i.area_regs a))).map
    (fun a2 => y a a2 θ)).sum

/-- Lower bounds of the base-model variables: `x` and `omega` are declared
with lower bound 0. -/
def baseVarBounds (i : InstanceData) (x : Nat → Nat → ℚ)
    (ω : Nat → Nat → Nat → ℚ) : Prop :=
  (∀ a ∈ i.areas, ∀ θ ∈ List.range i.n_periods, 0 ≤ x a θ) ∧
  (∀ a ∈ i.areas, ∀ θ ∈ List.range i.n_periods, ∀ s ∈ List.range i.n_scenarios,
    0 ≤ ω a θ s)

/-- The `reg_bound` constraints (lines 171-175). -/
def regBoundSat (i : InstanceData) (x : Nat → Nat → ℚ) : Prop :=
  ∀ r ∈ i.regions, ∀ θ ∈ List.range i.n_periods,
    regTotal i x r θ ≤ (i.ub_reg r : ℚ)

/-- The `global_bound` constraints (lines 177-180). -/
def globalBoundSat (i : InstanceData) (x : Nat → Nat → ℚ) : Prop :=
  ∀ θ ∈ List.range i.n_periods, allTotal i x θ ≤ (i.ub_global : ℚ)

/-- The `set_omega` constraints (lines 182-188) as a satisfaction predicate. -/
def setOmegaSat (i : InstanceData) (x : Nat → Nat → ℚ)
    (ω : Nat → Nat → Nat → ℚ) : Prop :=
  ∀ a ∈ i.areas, ∀ θ ∈ List.range i.n_periods, ∀ s ∈ List.range i.n_scenarios,
    i.srequired s a θ * ω a θ s ≥
      (i.srequired s a θ - x a θ) * i.sdemand s a θ * i.outsourcing_cost

/-- A feasible point of the shared base model (`__build_base_model`). -/
def BaseSat (i : InstanceData) (x : Nat → Nat → ℚ)
    (ω : Nat → Nat → Nat → ℚ) : Prop :=
  baseVarBounds i x ω ∧ regBoundSat i x ∧ globalBoundSat i x ∧ setOmegaSat i x ω

/-- Lower bounds of the `y` movement variables (line 198, `lb=0`). -/
def yVarBounds (i : InstanceData) (y : Nat → Nat → Nat → ℚ) : Prop :=
  ∀ a1 ∈ i.areas, ∀ a2 ∈ i.areas, ∀ θ ∈ List.range i.n_periods,
    0 ≤ y a1 a2 θ

/-- The `fix_region_n_couriers_in_shift` constraints of the fixed model
(lines 204-209): at every period of a shift after its first, the regional
total equals the regional total at the shift's first period. -/
def fixShiftSat (i : InstanceData) (x : Nat → Nat → ℚ) : Prop :=
  ∀ r ∈ i.regions, ∀ sh ∈ i.shifts, ∀ θ ∈ sh.tail,
    regTotal i x r θ = regTotal i x r sh.headI

/-- The `flow_balance` constraints of the fixed model (lines 211-217). -/
def fixFlowSat (i : InstanceData) (x : Nat → Nat → ℚ)
    (y : Nat → Nat → Nat → ℚ) : Prop :=
  ∀ r ∈ i.regions, ∀ a1 ∈ i.reg_areas r, ∀ sh ∈ i.shifts, ∀ θ ∈ sh.tail,
    x a1 θ = x a1 (θ - 1) + ySumIn i y a1 θ - ySumOut i y a1 θ

/-- A feasible point of the fixed model (`__build_fixed_model`). -/
def FixedSat (i : InstanceData) (x : Nat → Nat → ℚ)
    (ω : Nat → Nat → Nat → ℚ) (y : Nat → Nat → Nat → ℚ) : Prop :=
  BaseSat i x ω ∧ yVarBounds i y ∧ fixShiftSat i x ∧ fixFlowSat i x y

/-- Lower bounds of the `zplus`/`zminus` variables (lines 223-224) together
with the upper bounds forced to 0 (lines 231-237): with shift length 4 (the
only case reachable, since instance derivation requires 8 periods), `zminus`
is 0 on the last three periods and `zplus` on the first three. -/
def zVarBounds (i : InstanceData) (zplus zminus : Nat → Nat → ℚ) : Prop :=
  (∀ a ∈ i.areas, ∀ θ ∈ List.range i.n_periods, 0 ≤ zplus a θ) ∧
  (∀ a ∈ i.areas, ∀ θ ∈ List.range i.n_periods, 0 ≤ zminus a θ) ∧
  (∀ a ∈ i.areas, ∀ θ ∈ List.range' (i.n_periods - 4 + 1) 3, zminus a θ ≤ 0) ∧
  (∀ a ∈ i.areas, ∀ θ ∈ List.range 3, zplus a θ ≤ 0)

/-- The `fix_region_n_couriers_in_shift` constraints of the flexible model
(lines 239-245): regional shift-starts at `θ` equal regional shift-ends at
`θ + 3`, for every valid start period. -/
def flexLinkSat (i : InstanceData) (zplus zminus : Nat → Nat → ℚ) : Prop :=
  ∀ r ∈ i.regions, ∀ θ ∈ List.range i.n_periods, θ < i.n_periods + 1 - 4 →
    ((i.reg_areas r).map (fun a => zminus a θ)).sum =
      ((i.reg_areas r).map (fun a => zplus a (θ + 4 - 1))).sum

/-- The `flow_balance` constraints of the flexible model (lines 247-257). -/
def flexFlowSat (i : InstanceData) (x : Nat → Nat → ℚ)
    (y : Nat → Nat → Nat → ℚ) (zplus zminus : Nat → Nat → ℚ) : Prop :=
  ∀ r ∈ i.regions, ∀ a1 ∈ i.reg_areas r, ∀ θ ∈ List.range i.n_periods, 0 < θ →
    x a1 θ = x a1 (θ - 1) + ySumIn i y a1 θ - ySumOut i y a1 θ +
      zminus a1 θ - zplus a1 (θ - 1)

/-- The `flow_balance_first_period` constraints (lines 259-262). -/
def flexFlowFirstSat (i : InstanceData) (x : Nat → Nat → ℚ)
    (zminus : Nat → Nat → ℚ) : Prop :=
  ∀ a ∈ i.areas, x a 0 = zminus a 0

/-- A feasible point of the flexible model (`__build_flexible_model`). -/
def FlexSat (i : InstanceData) (x : Nat → Nat → ℚ)
    (ω : Nat → Nat → Nat → ℚ) (y : Nat → Nat → Nat → ℚ)
    (zplus zminus : Nat → Nat → ℚ) : Prop :=
  BaseSat i x ω ∧ yVarBounds i y ∧ zVarBounds i zplus zminus ∧
    flexLinkSat i zplus zminus ∧ flexFlowSat i x y zplus zminus ∧
    flexFlowFirstSat i x zminus

/-- The `link_z_w` constraints of the partflex model (lines 275-279). -/
def partflexLinkSat (i : InstanceData) (zminus : Nat → Nat → ℚ)
    (w : Nat → ℚ) : Prop :=
  ∀ r ∈ i.regions, ∀ θ ∈ List.range (i.n_periods - 4 + 1),
    ((i.reg_areas r).map (fun a => zminus a θ)).sum ≤ (i.ub_reg r : ℚ) * w θ

/-- A feasible point of the partflex model (`__build_partflex_model`): the
flexible model plus binary `w` indicators, the linking constraints and the
`limit_n_shifts` cap. -/
def PartflexSat (i : InstanceData) (x : Nat → Nat → ℚ)
    (ω : Nat → Nat → Nat → ℚ) (y : Nat → Nat → Nat → ℚ)
    (zplus zminus : Nat → Nat → ℚ) (w : Nat → ℚ) (cap : Int) : Prop :=
  FlexSat i x ω y zplus zminus ∧
    (∀ θ ∈ List.range (i.n_periods - 4 + 1), w θ = 0 ∨ w θ = 1) ∧
    partflexLinkSat i zminus w ∧
    ((List.range (i.n_periods - 4 + 1)).map w).sum ≤ (cap : ℚ)

/-- The data `__build_partflex_model` adds on top of the flexible model when
it completes: the `w` index range and the shift cap read from the instance. -/
structure PartflexModel where
  wIdx : List Nat
  cap : Int
deriving DecidableEq

/-- `Solver.__build_partflex_model` (lines 264-281) as it executes.
For `n_periods ≠ 8` both `__build_flexible_model` (line 229) and this method
(line 270) `return` a `NotImplementedError` object instead of raising it, so
the build ends silently with an incomplete model: modelled as `.ok none`
(this path is unreachable from real runs, since `__get_shifts` already raised
at instance derivation).  With 8 periods, the `w` variables and `link_z_w`
constraints are created, and only then line 281 reads `self.i.max_n_shifts`:
an unset attribute raises `AttributeError`, an attribute holding Python
`None` makes the comparison with a linear expression raise a `TypeError`. -/
def Solver.buildPartflexModel (i : InstanceData) : Except PyErr (Option PartflexModel) :=
  if i.n_periods = 8 then
    match i.max_n_shifts with
    | none => Except.error PyErr.attributeError
    | some none => Except.error PyErr.typeError
    | some (some v) => Except.ok (some ⟨List.range (i.n_periods - 4 + 1), v⟩)
  else Except.ok none

/-- Python true division guarded by its `ZeroDivisionError`: `none` models the
exception being raised. -/
def qdivOpt (a b : ℚ) : Option ℚ := if b = 0 then none else some (a / b)

/-- Line 358: the scenarios whose required-courier count at (area, period) is
positive. -/
def scenariosWithDemand (i : InstanceData) (a θ : Nat) : List Nat :=
  (List.range i.n_scenarios).filter (fun s => decide (0 < i.srequired s a θ))

/-- Python `sum` of a generator whose elements may raise: the first raised
exception aborts the whole sum. -/
def sumOpt (f : Nat → Option ℚ) : List Nat → Option ℚ
  | [] => some 0
  | s :: rest =>
    match f s, sumOpt f rest with
    | some v, some r => some (v + r)
    | _, _ => none

/-- A Python list comprehension whose elements may raise. -/
def mapOpt {α : Type} (f : Nat → Option α) : List Nat → Option (List α)
  | [] => some []
  | a :: rest =>
    match f a, mapOpt f rest with
    | some b, some bs => some (b :: bs)
    | _, _ => none

/-- Lines 357-390 of `__basic_results` for one (area, period), given the
solved value `xv` of `x[a,θ]`: when no scenario has positive required
couriers, the three estimates are 0 (lines 360-364); otherwise the three
per-scenario totals are summed (dividing by `required`), the outsourced
totals are clamped at 0 (lines 381-382) and all three are averaged over the
scenarios with demand. -/
def parcelStats (i : InstanceData) (xv : ℚ) (a θ : Nat) : Option (ℚ × ℚ × ℚ) :=
  let swd := scenariosWithDemand i a θ
  if swd.length = 0 then some (0, 0, 0) else
  match
    sumOpt (fun s =>
      qdivOpt ((i.srequired s a θ - xv) * i.sdemand s a θ) (i.srequired s a θ)) swd,
    sumOpt (fun s =>
      qdivOpt (100 * (i.srequired s a θ - xv)) (i.srequired s a θ)) swd,
    sumOpt (fun s =>
      qdivOpt (i.sdemand s a θ * xv) (i.srequired s a θ)) swd with
  | some t1, some t2, some t3 =>
    match qdivOpt (max t1 0) (swd.length : ℚ), qdivOpt (max t2 0) (swd.length : ℚ),
        qdivOpt t3 (swd.length : ℚ) with
    | some a1, some a2, some a3 => some (a1, a2, a3)
    | _, _, _ => none
  | _, _, _ => none

/-- Sum of solved `x` values over one region's areas and all periods
(numerator of line 397). -/
def xRegSumAll (i : InstanceData) (x : Nat → Nat → ℚ) (r : Nat) : ℚ :=
  ((i.reg_areas r).flatMap (fun a => (List.range i.n_periods).map (fun θ => x a θ))).sum

/-- Sum of solved `x` values over all areas and periods (lines 341 and 401). -/
def xSumAll (i : InstanceData) (x : Nat → Nat → ℚ) : ℚ :=
  (i.areas.flatMap (fun a => (List.range i.n_periods).map (fun θ => x a θ))).sum

/-- The `regional_hired_pct` dict (lines 396-399): per region,
`100 × Σ x / (ub_reg[region] × n_periods)`, with Python's division raising on
a zero denominator. -/
def regPcts (i : InstanceData) (x : Nat → Nat → ℚ) : Option (List (Nat × ℚ)) :=
  mapOpt (fun r =>
    (qdivOpt (100 * xRegSumAll i x r) ((i.ub_reg r : ℚ) * (i.n_periods : ℚ))).map
      (fun v => (r, v)))
    i.regions

/-- The per-area parcel-estimate tables (lines 348-394): for every area, the
list over periods of (outsourced, outsourced pct, in-house). -/
def areaStats (i : InstanceData) (x : Nat → Nat → ℚ) :
    Option (List (Nat × List (ℚ × ℚ × ℚ))) :=
  mapOpt (fun a =>
    (mapOpt (fun θ => parcelStats i (x a θ) a θ) (List.range i.n_periods)).map
      (fun ps => (a, ps)))
    i.areas

/-- The pure computational content of the results record built by
`__basic_results` (solver telemetry fields such as variable counts are owned
by the external solver and omitted). -/
structure BasicResults where
  hiring_costs : ℚ
  outsourcing_costs : ℚ
  hired_couriers : List (Nat × List ℤ)
  outsourced_parcels : List (Nat × List ℚ)
  outsourced_parcels_pct : List (Nat × List ℚ)
  inhouse_parcels : List (Nat × List ℚ)
  regional_hired_pct : List (Nat × ℚ)
  regional_avg_hired_pct : ℚ
  global_avg_hired_pct : ℚ
deriving DecidableEq

/-- `Solver.__basic_results` (lines 322-436) on the solved `x` values and the
objective value: the parcel-estimate loop runs first, then the regional and
global hired percentages (lines 396-401), whose divisions have no zero guard;
`none` models the extraction raising `ZeroDivisionError` instead of returning
a results record. -/
def basicResults (i : InstanceData) (x : Nat → Nat → ℚ) (objVal : ℚ) :
    Option BasicResults :=
  match areaStats i x with
  | none => none
  | some pstats =>
    match regPcts i x with
    | none => none
    | some rp =>
      match qdivOpt (100 * xSumAll i x) ((i.ub_global : ℚ) * (i.n_periods : ℚ)) with
      | none => none
      | some gPct =>
        some {
          hiring_costs := xSumAll i x
          outsourcing_costs := objVal - xSumAll i x
          hired_couriers := i.areas.map (fun a =>
            (a, (List.range i.n_periods).map (fun θ => pyInt (x a θ))))
          outsourced_parcels := pstats.map (fun p => (p.1, p.2.map (fun t => t.1)))
          outsourced_parcels_pct := pstats.map (fun p => (p.1, p.2.map (fun t => t.2.1)))
          inhouse_parcels := pstats.map (fun p => (p.1, p.2.map (fun t => t.2.2)))
          regional_hired_pct := rp
          regional_avg_hired_pct := npMean (rp.map Prod.snd)
          global_avg_hired_pct := gPct
        }

/-- Extract the payload of a successful computation (sample instances only). -/
def okD {ε α : Type} [Inhabited α] (e : Except ε α) : α :=
  match e with
  | Except.ok v => v
  | Except.error _ => default

/-- The everywhere-zero solved-values table for `x`-shaped variables. -/
def zfun2 : Nat → Nat → ℚ := fun _ _ => 0

/-- The everywhere-zero solved-values table for `y`/`omega`-shaped variables. -/
def zfun3 : Nat → Nat → Nat → ℚ := fun _ _ _ => 0

/-- Sample raw instance: one region (id 0) with one area (id 0), 8 periods,
one scenario, zero demand and zero required couriers. -/
def rawZero : RawInstance where
  dregions := [(0, [0])]
  n_periods := 8
  n_scenarios := 1
  sdemand := zfun3
  srequired := zfun3

/-- Sample raw instance with 6 periods (unsupported period count). -/
def rawSix : RawInstance where
  dregions := [(0, [0])]
  n_periods := 6
  n_scenarios := 1
  sdemand := zfun3
  srequired := zfun3

/-- Sample raw instance with two scenarios, constant demand 10 and constant
required couriers 1. -/
def rawOne : RawInstance where
  dregions := [(0, [0])]
  n_periods := 8
  n_scenarios := 2
  sdemand := fun _ _ _ => 10
  srequired := fun _ _ _ => 1

/-- Sample keyword arguments selecting the base model, all multipliers 1. -/
def kwBase : Kwargs where
  model := ModelKind.base
  regional_multiplier := 1
  global_multiplier := 1
  outsourcing_cost_multiplier := 1
  max_n_shifts := none

/-- Sample keyword arguments selecting partflex without the max-shift key. -/
def kwPartflexNoCap : Kwargs where
  model := ModelKind.partflex
  regional_multiplier := 1
  global_multiplier := 1
  outsourcing_cost_multiplier := 1
  max_n_shifts := none

/-- Sample keyword arguments selecting partflex with `max_n_shifts = 1`. -/
def kwPartflexCap : Kwargs where
  model := ModelKind.partflex
  regional_multiplier := 1
  global_multiplier := 1
  outsourcing_cost_multiplier := 1
  max_n_shifts := some 1

/-- Sample CLI arguments selecting partflex with the `-u` flag omitted. -/
def argsPartflexNoCap : Args where
  model := ModelKind.partflex
  regional_multiplier := 1
  global_multiplier := 1
  outsourcing_cost_multiplier := 1
  max_n_shifts := none

/-- The instance derived from `rawZero` under the base model. -/
def instZero : InstanceData := okD (Instance.computeData none kwBase rawZero)

/-- The instance derived from `rawOne` under the base model. -/
def instOne : InstanceData := okD (Instance.computeData none kwBase rawOne)

/-- The instance derived from `rawZero` by a CLI invocation of partflex with
the `-u` flag omitted (derivation succeeds, the attribute holds `None`). -/
def instCliNoCap : InstanceData :=
  okD (Instance.computeData (some argsPartflexNoCap) kwBase rawZero)

/-- Closed form of `__get_shifts`: the two-shift partition for 8 periods, a
`NotImplementedError` for every other period count. -/
lemma getShifts_eq (nP : Nat) :
    getShifts nP =
      if nP = 8 then Except.ok [[0, 1, 2, 3], [4, 5, 6, 7]]
      else Except.error PyErr.notImplemented := by
  by_cases h : nP = 8
  · subst h
    rfl
  · simp [getShifts, h]

/-- Inversion of a successful `__compute_data` run: the period count was 8,
the partflex parameter lookup succeeded, and the result is the assembled
record with the two-shift partition. -/
lemma computeData_inv {args : Option Args} {kw : Kwargs} {raw : RawInstance}
    {i : InstanceData} (h : Instance.computeData args kw raw = Except.ok i) :
    raw.n_periods = 8 ∧
    ∃ mns, mnsOf args kw (modelOf args kw) = Except.ok mns ∧
      i = mkInstanceData args kw raw [[0, 1, 2, 3], [4, 5, 6, 7]] mns := by
  unfold Instance.computeData at h
  split at h
  · exact Except.noConfusion h
  next shifts hG =>
    split at h
    · exact Except.noConfusion h
    next mns hM =>
      injection h with h
      have h8 : raw.n_periods = 8 := by
        by_contra hne
        rw [getShifts_eq, if_neg hne] at hG
        exact Except.noConfusion hG
      have hsh : shifts = [[0, 1, 2, 3], [4, 5, 6, 7]] := by
        rw [getShifts_eq, if_pos h8] at hG
        injection hG with hG
        exact hG.symm
      subst hsh
      exact ⟨h8, mns, hM, h.symm⟩

/-- A derived instance always has period count 8 and the two-shift partition. -/
lemma computeData_shifts {args : Option Args} {kw : Kwargs} {raw : RawInstance}
    {i : InstanceData} (h : Instance.computeData args kw raw = Except.ok i) :
    raw.n_periods = 8 ∧ i.shifts = [[0, 1, 2, 3], [4, 5, 6, 7]] := by
  obtain ⟨h8, mns, hM, rfl⟩ := computeData_inv h
  exact ⟨h8, rfl⟩

/-- C5: Instance derivation produces the shift partition [periods 0-3,
periods 4-7] exactly when the period count is 8; for any other period count
`__get_shifts` raises a `NotImplementedError` already at instance derivation,
so no instance (and hence no model) with a wrong shift partition is ever
produced. -/
theorem shift_partition_rule (args : Option Args) (kw : Kwargs) (raw : RawInstance) :
    (raw.n_periods = 8 →
       getShifts raw.n_periods = Except.ok [[0, 1, 2, 3], [4, 5, 6, 7]]) ∧
    (∀ i, Instance.computeData args kw raw = Except.ok i →
       raw.n_periods = 8 ∧ i.shifts = [[0, 1, 2, 3], [4, 5, 6, 7]]) ∧
    (raw.n_periods ≠ 8 →
       Instance.computeData args kw raw = Except.error PyErr.notImplemented) := by
  refine ⟨?_, ?_, ?_⟩
  · intro h8
    rw [getShifts_eq, if_pos h8]
  · intro i h
    exact computeData_shifts h
  · intro h8
    unfold Instance.computeData
    rw [getShifts_eq, if_neg h8]

/-- Witness for C5 at concrete instances with 8 and with 6 periods. -/
theorem shift_partition_rule_witness :
    (rawZero.n_periods = 8 ∧
       getShifts rawZero.n_periods = Except.ok [[0, 1, 2, 3], [4, 5, 6, 7]]) ∧
    (rawZero.n_periods = 8 ∧ instZero.shifts = [[0, 1, 2, 3], [4, 5, 6, 7]]) ∧
    (rawSix.n_periods ≠ 8 ∧
       Instance.computeData none kwBase rawSix = Except.error PyErr.notImplemented) :=
  ⟨⟨rfl, (shift_partition_rule none kwBase rawZero).1 rfl⟩,
   (shift_partition_rule none kwBase rawZero).2.1 instZero rfl,
   ⟨by decide, (shift_partition_rule none kwBase rawSix).2.2 (by decide)⟩⟩

/-- C1: `__build_base_model` declares, for every area and period, an integer
variable `x[a,θ]` with lower bound 0 and objective coefficient 1; for every
(area, period, scenario) a continuous variable `omega[a,θ,s]` with lower
bound 0 and objective coefficient `1/n_scenarios`; and adds for every
(area, period, scenario) the constraint
`required · omega ≥ (required − x) · demand · outsourcing_cost`, where the
instance's outsourcing cost is `1.0 × outsourcing_cost_multiplier`. -/
theorem base_model_declaration (args : Option Args) (kw : Kwargs)
    (raw : RawInstance) (i : InstanceData)
    (h : Instance.computeData args kw raw = Except.ok i)
    (a θ s : Nat) (ha : a ∈ i.areas) (hθ : θ < i.n_periods)
    (hs : s < i.n_scenarios) :
    ((a, θ), (⟨VType.integer, 0, 1⟩ : VarSpec)) ∈ baseXVars i ∧
    ((a, θ, s), (⟨VType.continuous, 0, 1 / (i.n_scenarios : ℚ)⟩ : VarSpec)) ∈
      baseOmegaVars i ∧
    ((a, θ, s),
      (⟨i.srequired s a θ, i.sdemand s a θ, i.outsourcing_cost⟩ : OmegaConstr)) ∈
      setOmegaConstrs i ∧
    i.outsourcing_cost =
      COST_PER_COURIER_AND_PERIOD * i.outsourcing_cost_multiplier ∧
    (∀ xv ωv : ℚ,
      OmegaConstr.holds
          ⟨i.srequired s a θ, i.sdemand s a θ, i.outsourcing_cost⟩ xv ωv ↔
        i.srequired s a θ * ωv ≥
          (i.srequired s a θ - xv) * i.sdemand s a θ * i.outsourcing_cost) := by
  refine ⟨?_, ?_, ?_, ?_, fun xv ωv => Iff.rfl⟩
  · exact List.mem_flatMap.mpr
      ⟨a, ha, List.mem_map.mpr ⟨θ, List.mem_range.mpr hθ, rfl⟩⟩
  · exact List.mem_flatMap.mpr
      ⟨a, ha, List.mem_flatMap.mpr ⟨θ, List.mem_range.mpr hθ,
        List.mem_map.mpr ⟨s, List.mem_range.mpr hs, rfl⟩⟩⟩
  · exact List.mem_flatMap.mpr
      ⟨a, ha, List.mem_flatMap.mpr ⟨θ, List.mem_range.mpr hθ,
        List.mem_map.mpr ⟨s, List.mem_range.mpr hs, rfl⟩⟩⟩
  · obtain ⟨h8, mns, hM, rfl⟩ := computeData_inv h
    rfl

/-- Witness for C1 on the derived sample instance. -/
theorem base_model_declaration_witness :
    Instance.computeData none kwBase rawZero = Except.ok instZero ∧
    0 ∈ instZero.areas ∧ 0 < instZero.n_periods ∧ 0 < instZero.n_scenarios ∧
    (((0, 0), (⟨VType.integer, 0, 1⟩ : VarSpec)) ∈ baseXVars instZero ∧
     ((0, 0, 0),
       (⟨VType.continuous, 0, 1 / (instZero.n_scenarios : ℚ)⟩ : VarSpec)) ∈
       baseOmegaVars instZero ∧
     ((0, 0, 0),
       (⟨instZero.srequired 0 0 0, instZero.sdemand 0 0 0,
         instZero.outsourcing_cost⟩ : OmegaConstr)) ∈ setOmegaConstrs instZero ∧
     instZero.outsourcing_cost =
       COST_PER_COURIER_AND_PERIOD * instZero.outsourcing_cost_multiplier ∧
     (∀ xv ωv : ℚ,
       OmegaConstr.holds
           ⟨instZero.srequired 0 0 0, instZero.sdemand 0 0 0,
             instZero.outsourcing_cost⟩ xv ωv ↔
         instZero.srequired 0 0 0 * ωv ≥
           (instZero.srequired 0 0 0 - xv) * instZero.sdemand 0 0 0 *
             instZero.outsourcing_cost)) :=
  ⟨rfl, by decide, by decide, by decide,
   base_model_declaration none kwBase rawZero instZero rfl 0 0 0
     (by decide) (by decide) (by decide)⟩

/-- The mean of a list of nonnegative rationals is nonnegative. -/
lemma npMean_nonneg {l : List ℚ} (h : ∀ q ∈ l, 0 ≤ q) : 0 ≤ npMean l := by
  unfold npMean
  exact div_nonneg (List.sum_nonneg h) (Nat.cast_nonneg _)

/-- `mhat1` is nonnegative when the required-courier table is. -/
lemma mhat1_nonneg {req : Nat → Nat → Nat → ℚ}
    (hreq : ∀ s a θ, 0 ≤ req s a θ) (nS a θ : Nat) : 0 ≤ mhat1 req nS a θ := by
  apply npMean_nonneg
  intro q hq
  obtain ⟨s, -, rfl⟩ := List.mem_map.mp hq
  exact hreq s a θ

/-- `mhat2` is nonnegative when the required-courier table is. -/
lemma mhat2_nonneg {req : Nat → Nat → Nat → ℚ}
    (hreq : ∀ s a θ, 0 ≤ req s a θ) (nS nP a : Nat) : 0 ≤ mhat2 req nS nP a := by
  apply npMean_nonneg
  intro q hq
  obtain ⟨θ, -, rfl⟩ := List.mem_map.mp hq
  exact mhat1_nonneg hreq nS a θ

/-- On nonnegative inputs, Python `int()` agrees with the floor. -/
lemma pyInt_of_nonneg {q : ℚ} (h : 0 ≤ q) : pyInt q = ⌊q⌋ := by
  unfold pyInt
  exact if_pos h

/-- Python `int()` of a nonnegative rational is nonnegative. -/
lemma pyInt_nonneg {q : ℚ} (h : 0 ≤ q) : 0 ≤ pyInt q := by
  rw [pyInt_of_nonneg h]
  exact Int.floor_nonneg.mpr h

/-- The regional `mhat2` sums are nonnegative for nonnegative tables. -/
lemma sum_map_mhat2_nonneg {req : Nat → Nat → Nat → ℚ}
    (hreq : ∀ s a θ, 0 ≤ req s a θ) (nS nP : Nat) (ras : List Nat) :
    0 ≤ (ras.map (fun a => mhat2 req nS nP a)).sum := by
  apply List.sum_nonneg
  intro q hq
  obtain ⟨a, -, rfl⟩ := List.mem_map.mp hq
  exact mhat2_nonneg hreq nS nP a

/-- The regional bound is nonnegative whenever inputs are. -/
lemma ubRegOf_nonneg {req : Nat → Nat → Nat → ℚ}
    (hreq : ∀ s a θ, 0 ≤ req s a θ) (nS nP : Nat) {rm : ℚ} (hrm : 0 ≤ rm)
    (ras : List Nat) : 0 ≤ ubRegOf req nS nP rm ras :=
  pyInt_nonneg (mul_nonneg hrm (sum_map_mhat2_nonneg hreq nS nP ras))

/-- Floor form and nonnegativity of the global bound on nonnegative inputs. -/
lemma ubGlobalOf_eq_floor {gm : ℚ} (hgm : 0 ≤ gm) {ubs : List ℤ}
    (hubs : ∀ z ∈ ubs, 0 ≤ z) :
    ubGlobalOf gm ubs = ⌊gm * ((ubs.map (fun z : ℤ => (z : ℚ))).sum)⌋ ∧
    0 ≤ ubGlobalOf gm ubs := by
  have hq : 0 ≤ gm * ((ubs.map (fun z : ℤ => (z : ℚ))).sum) := by
    apply mul_nonneg hgm
    apply List.sum_nonneg
    intro q hq
    obtain ⟨z, hz, rfl⟩ := List.mem_map.mp hq
    exact_mod_cast hubs z hz
  exact ⟨pyInt_of_nonneg hq, pyInt_nonneg hq⟩

/-- C2: on every valid derived instance (nonnegative required-courier table
and multipliers), each regional bound is the floor of the regional multiplier
times the sum of `mhat2` over the region's areas, and the global bound is the
floor of the global multiplier times the sum of the regional bounds — a
deterministic integer function `ubGlobalOf` of those two inputs only, and
nonnegative. -/
theorem derived_bounds_floor (args : Option Args) (kw : Kwargs)
    (raw : RawInstance) (i : InstanceData)
    (h : Instance.computeData args kw raw = Except.ok i)
    (hreq : ∀ s a θ, 0 ≤ raw.srequired s a θ)
    (hrm : 0 ≤ rmOf args kw) (hgm : 0 ≤ gmOf args kw) :
    (∀ r ∈ i.regions,
       i.ub_reg r = ⌊i.reg_multiplier * ((i.reg_areas r).map (fun a =>
         mhat2 i.srequired i.n_scenarios i.n_periods a)).sum⌋) ∧
    i.ub_global =
      ⌊i.glb_multiplier * ((i.regions.map (fun r => (i.ub_reg r : ℚ))).sum)⌋ ∧
    i.ub_global = ubGlobalOf i.glb_multiplier (i.regions.map i.ub_reg) ∧
    0 ≤ i.ub_global := by
  obtain ⟨h8, mns, hM, rfl⟩ := computeData_inv h
  have hubs : ∀ z ∈ (raw.dregions.map Prod.fst).map (fun r =>
      ubRegOf raw.srequired raw.n_scenarios raw.n_periods (rmOf args kw)
        (regAreasOf raw.dregions r)), 0 ≤ z := by
    intro z hz
    obtain ⟨r, -, rfl⟩ := List.mem_map.mp hz
    exact ubRegOf_nonneg hreq _ _ hrm _
  obtain ⟨hfl, hnn⟩ := ubGlobalOf_eq_floor hgm hubs
  refine ⟨?_, ?_, rfl, hnn⟩
  · intro r hr
    exact pyInt_of_nonneg (mul_nonneg hrm (sum_map_mhat2_nonneg hreq _ _ _))
  · calc
      (mkInstanceData args kw raw [[0, 1, 2, 3], [4, 5, 6, 7]] mns).ub_global =
          ⌊gmOf args kw * ((((raw.dregions.map Prod.fst).map (fun r =>
            ubRegOf raw.srequired raw.n_scenarios raw.n_periods (rmOf args kw)
              (regAreasOf raw.dregions r))).map (fun z : ℤ => (z : ℚ))).sum)⌋ := hfl
      _ = _ := by
        rw [List.map_map]
        rfl

/-- Witness for C2 on the derived all-zero sample instance. -/
theorem derived_bounds_floor_witness :
    Instance.computeData none kwBase rawZero = Except.ok instZero ∧
    (∀ s a θ, 0 ≤ rawZero.srequired s a θ) ∧
    (0 : ℚ) ≤ rmOf none kwBase ∧ (0 : ℚ) ≤ gmOf none kwBase ∧
    ((∀ r ∈ instZero.regions,
        instZero.ub_reg r = ⌊instZero.reg_multiplier *
          ((instZero.reg_areas r).map (fun a =>
            mhat2 instZero.srequired instZero.n_scenarios
              instZero.n_periods a)).sum⌋) ∧
     instZero.ub_global = ⌊instZero.glb_multiplier *
       ((instZero.regions.map (fun r => (instZero.ub_reg r : ℚ))).sum)⌋ ∧
     instZero.ub_global =
       ubGlobalOf instZero.glb_multiplier (instZero.regions.map instZero.ub_reg) ∧
     0 ≤ instZero.ub_global) :=
  ⟨rfl, fun _ _ _ => le_rfl, zero_le_one, zero_le_one,
   derived_bounds_floor none kwBase rawZero instZero rfl
     (fun _ _ _ => le_rfl) zero_le_one zero_le_one⟩

/-- With distinct region ids, `find?` on the geography list recovers exactly
the entry of a given region. -/
lemma find?_fst_eq {l : List (Nat × List Nat)} (hnd : (l.map Prod.fst).Nodup)
    {p : Nat × List Nat} (hp : p ∈ l) :
    l.find? (fun q => q.1 == p.1) = some p := by
  induction l with
  | nil => cases hp
  | cons q t ih =>
    simp only [List.map_cons, List.nodup_cons] at hnd
    obtain ⟨hq1, hnd'⟩ := hnd
    rcases List.mem_cons.mp hp with rfl | hpt
    · exact List.find?_cons_of_pos _ (by simp)
    · have hne : (q.1 == p.1) = false := by
        apply beq_eq_false_iff_ne.mpr
        intro hEq
        exact hq1 (by rw [hEq]; exact List.mem_map.mpr ⟨p, hpt, rfl⟩)
      rw [List.find?_cons_of_neg _ (by simp [hne])]
      exact ih hnd' hpt

/-- Every area of an instance with distinct region ids belongs to the area
list of one of its regions. -/
lemma mem_areas_region (i : InstanceData)
    (hnd : (i.dregions.map Prod.fst).Nodup) {a : Nat} (ha : a ∈ i.areas) :
    ∃ r ∈ i.regions, a ∈ i.reg_areas r := by
  obtain ⟨p, hp, hap⟩ := List.mem_flatMap.mp ha
  refine ⟨p.1, List.mem_map.mpr ⟨p, hp, rfl⟩, ?_⟩
  unfold InstanceData.reg_areas regAreasOf
  rw [find?_fst_eq hnd hp]
  exact hap

/-- C3: in the flexible model (and hence the partflex model, which builds on
it), the constraint `x[a,0] = zminus[a,0]` is added for every area and, for
every period after the first, the constraint
`x[a,θ] = x[a,θ−1] + movement-in − movement-out + zminus[a,θ] − zplus[a,θ−1]`
is added for every area of every region; consequently every feasible point
satisfies the flow-balance identity exactly at every period. -/
theorem flex_flow_balance (i : InstanceData) (x : Nat → Nat → ℚ)
    (ω : Nat → Nat → Nat → ℚ) (y : Nat → Nat → Nat → ℚ)
    (zplus zminus : Nat → Nat → ℚ)
    (hnd : (i.dregions.map Prod.fst).Nodup)
    (h : FlexSat i x ω y zplus zminus ∨
       ∃ w cap, PartflexSat i x ω y zplus zminus w cap) :
    ∀ a ∈ i.areas,
      x a 0 = zminus a 0 ∧
      ∀ θ, 0 < θ → θ < i.n_periods →
        x a θ = x a (θ - 1) + ySumIn i y a θ - ySumOut i y a θ +
          zminus a θ - zplus a (θ - 1) := by
  have hf : FlexSat i x ω y zplus zminus := by
    rcases h with h | ⟨w, cap, h⟩
    exacts [h, h.1]
  obtain ⟨-, -, -, -, hflow, hfirst⟩ := hf
  intro a ha
  refine ⟨hfirst a ha, fun θ hpos hlt => ?_⟩
  obtain ⟨r, hr, har⟩ := mem_areas_region i hnd ha
  exact hflow r hr a har θ (List.mem_range.mpr hlt) hpos

/-- C4: in the fixed model, the added constraints force the regional total at
every period of a shift after its first to equal the regional total at the
shift's first period; hence in every feasible point of the fixed model the
regional total of hired couriers is constant across the periods of each
shift. -/
theorem fixed_shift_constant_staffing (i : InstanceData) (x : Nat → Nat → ℚ)
    (ω : Nat → Nat → Nat → ℚ) (y : Nat → Nat → Nat → ℚ)
    (h : FixedSat i x ω y) :
    (∀ r ∈ i.regions, ∀ sh ∈ i.shifts, ∀ θ ∈ sh.tail,
       regTotal i x r θ = regTotal i x r sh.headI) ∧
    (∀ r ∈ i.regions, ∀ sh ∈ i.shifts, ∀ θ1 ∈ sh, ∀ θ2 ∈ sh,
       regTotal i x r θ1 = regTotal i x r θ2) := by
  obtain ⟨-, -, hshift, -⟩ := h
  refine ⟨hshift, ?_⟩
  intro r hr sh hsh θ1 h1 θ2 h2
  cases sh with
  | nil => cases h1
  | cons b t =>
    have key : ∀ θ ∈ (b :: t), regTotal i x r θ = regTotal i x r (b :: t).headI := by
      intro θ hθ
      rcases List.mem_cons.mp hθ with rfl | ht
      · rfl
      · exact hshift r hr (b :: t) hsh θ ht
    rw [key θ1 h1, key θ2 h2]

/-- Summing a constant-zero map gives zero. -/
lemma sum_map_zero {α : Type} (l : List α) : (l.map (fun _ => (0 : ℚ))).sum = 0 := by
  induction l with
  | nil => rfl
  | cons b t ih => simp [ih]

/-- `mhat1` of the all-zero table is zero. -/
lemma mhat1_zero (nS a θ : Nat) : mhat1 (fun _ _ _ => (0 : ℚ)) nS a θ = 0 := by
  unfold mhat1 npMean
  simp

/-- `mhat2` of the all-zero table is zero. -/
lemma mhat2_zero (nS nP a : Nat) : mhat2 (fun _ _ _ => (0 : ℚ)) nS nP a = 0 := by
  unfold mhat2 npMean
  simp [mhat1_zero]

/-- Regional bounds of the all-zero table are zero. -/
lemma ubRegOf_zero (nS nP : Nat) (rm : ℚ) (ras : List Nat) :
    ubRegOf (fun _ _ _ => (0 : ℚ)) nS nP rm ras = 0 := by
  unfold ubRegOf
  simp [mhat2_zero, pyInt]

/-- The sample instance has all regional bounds equal to zero. -/
lemma instZero_ub_reg (r : Nat) : instZero.ub_reg r = 0 :=
  ubRegOf_zero 1 8 1 (regAreasOf [(0, [0])] r)

/-- The sample instance has global bound zero. -/
lemma instZero_ub_global : instZero.ub_global = 0 := by
  show ubGlobalOf 1 (([(0, [0])] : List (Nat × List Nat)).map Prod.fst |>.map
    (fun r => ubRegOf (fun _ _ _ => (0 : ℚ)) 1 8 1 (regAreasOf [(0, [0])] r))) = 0
  unfold ubGlobalOf
  simp [ubRegOf_zero, pyInt]

/-- The all-zero assignment is feasible for the flexible model on the sample
instance. -/
lemma flexSat_zero : FlexSat instZero zfun2 zfun3 zfun3 zfun2 zfun2 := by
  refine ⟨⟨⟨?_, ?_⟩, ?_, ?_, ?_⟩, ?_, ⟨?_, ?_, ?_, ?_⟩, ?_, ?_, ?_⟩
  · intro a _ θ _
    exact le_rfl
  · intro a _ θ _ s _
    exact le_rfl
  · intro r hr θ _
    have h0 : regTotal instZero zfun2 r θ = 0 := sum_map_zero _
    rw [h0, instZero_ub_reg r]
    simp
  · intro θ _
    have h0 : allTotal instZero zfun2 θ = 0 := sum_map_zero _
    rw [h0, instZero_ub_global]
    simp
  · intro a _ θ _ s _
    show (0 : ℚ) * 0 ≥ ((0 : ℚ) - 0) * 0 * instZero.outsourcing_cost
    simp
  · intro a1 _ a2 _ θ _
    exact le_rfl
  · intro a _ θ _
    exact le_rfl
  · intro a _ θ _
    exact le_rfl
  · intro a _ θ _
    exact le_rfl
  · intro a _ θ _
    exact le_rfl
  · intro r _ θ _ _
    exact (sum_map_zero _).trans (sum_map_zero _).symm
  · intro r _ a1 _ θ _ _
    show (0 : ℚ) = 0 + ySumIn instZero zfun3 a1 θ - ySumOut instZero zfun3 a1 θ + 0 - 0
    have h1 : ySumIn instZero zfun3 a1 θ = 0 := sum_map_zero _
    have h2 : ySumOut instZero zfun3 a1 θ = 0 := sum_map_zero _
    rw [h1, h2]
    simp
  · intro a _
    rfl

/-- The all-zero assignment is feasible for the fixed model on the sample
instance. -/
lemma fixedSat_zero : FixedSat instZero zfun2 zfun3 zfun3 := by
  obtain ⟨hbase, hy, -, -, -, -⟩ := flexSat_zero
  refine ⟨hbase, hy, ?_, ?_⟩
  · intro r _ sh _ θ _
    exact (sum_map_zero _).trans (sum_map_zero _).symm
  · intro r _ a1 _ sh _ θ _
    show (0 : ℚ) = 0 + ySumIn instZero zfun3 a1 θ - ySumOut instZero zfun3 a1 θ
    have h1 : ySumIn instZero zfun3 a1 θ = 0 := sum_map_zero _
    have h2 : ySumOut instZero zfun3 a1 θ = 0 := sum_map_zero _
    rw [h1, h2]
    simp

/-- Witness for C3 on the sample instance with the all-zero feasible point. -/
theorem flex_flow_balance_witness :
    (instZero.dregions.map Prod.fst).Nodup ∧
    FlexSat instZero zfun2 zfun3 zfun3 zfun2 zfun2 ∧
    (∀ a ∈ instZero.areas,
      zfun2 a 0 = zfun2 a 0 ∧
      ∀ θ, 0 < θ → θ < instZero.n_periods →
        zfun2 a θ = zfun2 a (θ - 1) + ySumIn instZero zfun3 a θ -
          ySumOut instZero zfun3 a θ + zfun2 a θ - zfun2 a (θ - 1)) :=
  ⟨by decide, flexSat_zero,
   flex_flow_balance instZero zfun2 zfun3 zfun3 zfun2 zfun2 (by decide)
     (Or.inl flexSat_zero)⟩

/-- Witness for C4 on the sample instance with the all-zero feasible point. -/
theorem fixed_shift_constant_staffing_witness :
    FixedSat instZero zfun2 zfun3 zfun3 ∧
    ((∀ r ∈ instZero.regions, ∀ sh ∈ instZero.shifts, ∀ θ ∈ sh.tail,
        regTotal instZero zfun2 r θ = regTotal instZero zfun2 r sh.headI) ∧
     (∀ r ∈ instZero.regions, ∀ sh ∈ instZero.shifts, ∀ θ1 ∈ sh, ∀ θ2 ∈ sh,
        regTotal instZero zfun2 r θ1 = regTotal instZero zfun2 r θ2)) :=
  ⟨fixedSat_zero,
   fixed_shift_constant_staffing instZero zfun2 zfun3 zfun3 fixedSat_zero⟩

/-- C6 counterexample: a CLI invocation of partflex with the optional
`--max-n-shifts` flag omitted.  Instance derivation succeeds with no error at
all (so the run does not fail before model construction), and the failure
happens only when `__build_partflex_model` reaches the shift-cap constraint
of line 281, after the `w` variables and link constraints were generated. -/
theorem partflex_missing_cap_cex :
    Instance.computeData (some argsPartflexNoCap) kwBase rawZero =
      Except.ok instCliNoCap ∧
    Solver.buildPartflexModel instCliNoCap = Except.error PyErr.typeError :=
  ⟨rfl, rfl⟩

/-- C6 (amended): when partflex is selected programmatically (`args=None`)
without `max_n_shifts` among the keyword arguments, instance derivation
fails with a `KeyError` before any model construction; but when partflex is
selected via the CLI with the optional flag omitted, derivation succeeds
(the attribute holds `None`) and the run fails only at the shift-cap
constraint inside partflex model construction, with a `TypeError`. -/
theorem partflex_missing_cap_behavior (args : Args) (kw : Kwargs)
    (raw : RawInstance) (h8 : raw.n_periods = 8) :
    (kw.model = ModelKind.partflex → kw.max_n_shifts = none →
       Instance.computeData none kw raw = Except.error PyErr.keyError) ∧
    (args.model = ModelKind.partflex → args.max_n_shifts = none →
       ∃ i, Instance.computeData (some args) kw raw = Except.ok i ∧
         Solver.buildPartflexModel i = Except.error PyErr.typeError) := by
  constructor
  · intro hm hk
    unfold Instance.computeData
    rw [getShifts_eq, if_pos h8]
    simp [mnsOf, modelOf, hm, hk]
  · intro hm hk
    refine ⟨mkInstanceData (some args) kw raw [[0, 1, 2, 3], [4, 5, 6, 7]]
      (none, some none), ?_, ?_⟩
    · unfold Instance.computeData
      rw [getShifts_eq, if_pos h8]
      simp [mnsOf, modelOf, hm, hk]
    · unfold Solver.buildPartflexModel
      simp [mkInstanceData, h8]

/-- Witness for C6 (amended) at concrete inputs. -/
theorem partflex_missing_cap_behavior_witness :
    rawZero.n_periods = 8 ∧
    Instance.computeData none kwPartflexNoCap rawZero =
      Except.error PyErr.keyError ∧
    (∃ i, Instance.computeData (some argsPartflexNoCap) kwBase rawZero =
       Except.ok i ∧
       Solver.buildPartflexModel i = Except.error PyErr.typeError) :=
  ⟨rfl,
   (partflex_missing_cap_behavior argsPartflexNoCap kwPartflexNoCap rawZero
     rfl).1 rfl rfl,
   (partflex_missing_cap_behavior argsPartflexNoCap kwBase rawZero
     rfl).2 rfl rfl⟩

/-- C10: a programmatic invocation (`args=None`) of partflex with
`max_n_shifts` supplied stores the value under the misspelled attribute
`max_n_shift` (line 108), while `__build_partflex_model` reads
`max_n_shifts` (line 281); the supplied cap never reaches the model and the
build fails with an `AttributeError` even though the parameter was given. -/
theorem partflex_attr_typo (kw : Kwargs) (raw : RawInstance) (v : Int)
    (h8 : raw.n_periods = 8) (hm : kw.model = ModelKind.partflex)
    (hv : kw.max_n_shifts = some v) :
    ∃ i, Instance.computeData none kw raw = Except.ok i ∧
      i.max_n_shift = some (some v) ∧ i.max_n_shifts = none ∧
      Solver.buildPartflexModel i = Except.error PyErr.attributeError := by
  refine ⟨mkInstanceData none kw raw [[0, 1, 2, 3], [4, 5, 6, 7]]
    (some (some v), none), ?_, rfl, rfl, ?_⟩
  · unfold Instance.computeData
    rw [getShifts_eq, if_pos h8]
    simp [mnsOf, modelOf, hm, hv]
  · unfold Solver.buildPartflexModel
    simp [mkInstanceData, h8]

/-- Witness for C10 at a concrete programmatic invocation with cap 1. -/
theorem partflex_attr_typo_witness :
    rawZero.n_periods = 8 ∧ kwPartflexCap.model = ModelKind.partflex ∧
    kwPartflexCap.max_n_shifts = some 1 ∧
    (∃ i, Instance.computeData none kwPartflexCap rawZero = Except.ok i ∧
       i.max_n_shift = some (some 1) ∧ i.max_n_shifts = none ∧
       Solver.buildPartflexModel i = Except.error PyErr.attributeError) :=
  ⟨rfl, rfl, rfl, partflex_attr_typo kwPartflexCap rawZero 1 rfl rfl rfl⟩

/-- Guarded division succeeds on nonzero denominators. -/
lemma qdivOpt_eq_some {a b : ℚ} (h : b ≠ 0) : qdivOpt a b = some (a / b) := by
  unfold qdivOpt
  exact if_neg h

/-- Membership in the scenarios-with-demand list means the scenario index is
in range and its required-courier value is positive. -/
lemma mem_swd {i : InstanceData} {a θ s : Nat}
    (h : s ∈ scenariosWithDemand i a θ) :
    s < i.n_scenarios ∧ 0 < i.srequired s a θ := by
  unfold scenariosWithDemand at h
  have hm := List.mem_filter.mp h
  exact ⟨List.mem_range.mp hm.1, of_decide_eq_true hm.2⟩

/-- A sum of guarded divisions with nonzero denominators evaluates to the sum
of plain divisions. -/
lemma sumOpt_eq_some {f : Nat → Option ℚ} {g : Nat → ℚ} {l : List Nat}
    (h : ∀ s ∈ l, f s = some (g s)) :
    sumOpt f l = some ((l.map g).sum) := by
  induction l with
  | nil => rfl
  | cons s t ih =>
    rw [sumOpt, h s (List.mem_cons_self s t),
      ih (fun z hz => h z (List.mem_cons_of_mem s hz))]
    simp

/-- Clamping before or after dividing by a positive count is the same. -/
lemma max_div_nonneg (t : ℚ) {n : ℚ} (hn : 0 < n) :
    max t 0 / n = max (t / n) 0 := by
  rcases le_or_lt 0 t with ht | ht
  · rw [max_eq_left ht, max_eq_left (div_nonneg ht hn.le)]
  · rw [max_eq_right ht.le,
      max_eq_right (div_neg_of_neg_of_pos ht hn).le, zero_div]

/-- Evaluation of the per-(area, period) parcel estimates when some scenario
has positive required couriers. -/
lemma parcelStats_avg_eq (i : InstanceData) (xv : ℚ) (a θ : Nat)
    (h : scenariosWithDemand i a θ ≠ []) :
    parcelStats i xv a θ = some
      (max (((scenariosWithDemand i a θ).map (fun s =>
         (i.srequired s a θ - xv) * i.sdemand s a θ / i.srequired s a θ)).sum /
         ((scenariosWithDemand i a θ).length : ℚ)) 0,
       max (((scenariosWithDemand i a θ).map (fun s =>
         100 * (i.srequired s a θ - xv) / i.srequired s a θ)).sum /
         ((scenariosWithDemand i a θ).length : ℚ)) 0,
       ((scenariosWithDemand i a θ).map (fun s =>
         i.sdemand s a θ * xv / i.srequired s a θ)).sum /
         ((scenariosWithDemand i a θ).length : ℚ)) := by
  have hlen : (scenariosWithDemand i a θ).length ≠ 0 := by
    intro h0
    exact h (List.length_eq_zero.mp h0)
  have hlenQ : (((scenariosWithDemand i a θ).length : ℚ)) ≠ 0 := by
    exact_mod_cast hlen
  have hlenPos : (0 : ℚ) < ((scenariosWithDemand i a θ).length : ℚ) := by
    have := Nat.pos_of_ne_zero hlen
    exact_mod_cast this
  have hne : ∀ s ∈ scenariosWithDemand i a θ, i.srequired s a θ ≠ 0 :=
    fun s hs => ne_of_gt (mem_swd hs).2
  unfold parcelStats
  rw [if_neg hlen]
  rw [sumOpt_eq_some (g := fun s =>
      (i.srequired s a θ - xv) * i.sdemand s a θ / i.srequired s a θ)
      (fun s hs => qdivOpt_eq_some (hne s hs)),
    sumOpt_eq_some (g := fun s =>
      100 * (i.srequired s a θ - xv) / i.srequired s a θ)
      (fun s hs => qdivOpt_eq_some (hne s hs)),
    sumOpt_eq_some (g := fun s =>
      i.sdemand s a θ * xv / i.srequired s a θ)
      (fun s hs => qdivOpt_eq_some (hne s hs))]
  dsimp only
  rw [qdivOpt_eq_some hlenQ, qdivOpt_eq_some hlenQ, qdivOpt_eq_some hlenQ]
  dsimp only
  rw [max_div_nonneg _ hlenPos, max_div_nonneg _ hlenPos]

/-- Evaluation of the per-(area, period) parcel estimates when no scenario
has positive required couriers. -/
lemma parcelStats_empty_eq (i : InstanceData) (xv : ℚ) (a θ : Nat)
    (h : scenariosWithDemand i a θ = []) :
    parcelStats i xv a θ = some (0, 0, 0) := by
  unfold parcelStats
  rw [h]
  rfl

/-- The parcel-estimate computation never raises a division error. -/
lemma parcelStats_isSome (i : InstanceData) (xv : ℚ) (a θ : Nat) :
    (parcelStats i xv a θ).isSome = true := by
  by_cases h : scenariosWithDemand i a θ = []
  · rw [parcelStats_empty_eq i xv a θ h]
    rfl
  · rw [parcelStats_avg_eq i xv a θ h]
    rfl

/-- A comprehension of succeeding computations succeeds. -/
lemma mapOpt_isSome {α : Type} {f : Nat → Option α} {l : List Nat}
    (h : ∀ a ∈ l, (f a).isSome = true) : (mapOpt f l).isSome = true := by
  induction l with
  | nil => rfl
  | cons a t ih =>
    rw [mapOpt]
    obtain ⟨b, hb⟩ := Option.isSome_iff_exists.mp (h a (List.mem_cons_self a t))
    obtain ⟨bs, hbs⟩ := Option.isSome_iff_exists.mp
      (ih (fun z hz => h z (List.mem_cons_of_mem a hz)))
    rw [hb, hbs]
    rfl

/-- A comprehension raising on some element raises. -/
lemma mapOpt_eq_none {α : Type} {f : Nat → Option α} {l : List Nat} {a : Nat}
    (ha : a ∈ l) (hf : f a = none) : mapOpt f l = none := by
  induction l with
  | nil => cases ha
  | cons b t ih =>
    rw [mapOpt]
    rcases List.mem_cons.mp ha with rfl | hat
    · rw [hf]
    · cases hfb : f b with
      | none => rfl
      | some v => rw [ih hat]

/-- The parcel-estimate loop of `__basic_results` always completes. -/
lemma areaStats_isSome (i : InstanceData) (x : Nat → Nat → ℚ) :
    (areaStats i x).isSome = true := by
  apply mapOpt_isSome
  intro a _
  obtain ⟨ps, hps⟩ := Option.isSome_iff_exists.mp
    (mapOpt_isSome (f := fun θ => parcelStats i (x a θ) a θ)
      (l := List.range i.n_periods) (fun θ _ => parcelStats_isSome i (x a θ) a θ))
  rw [hps]
  rfl

/-- The regional hired-percentage comprehension raises as soon as one region
has a zero denominator. -/
lemma regPcts_none_of_zero {i : InstanceData} {x : Nat → Nat → ℚ} {r : Nat}
    (hr : r ∈ i.regions)
    (h0 : (i.ub_reg r : ℚ) * (i.n_periods : ℚ) = 0) : regPcts i x = none := by
  apply mapOpt_eq_none hr
  simp [qdivOpt, h0]

/-- C7: for every area and period with at least one scenario of positive
required couriers, extraction reports the outsourced parcel count as the
average over those scenarios of `(required − x)·demand/required` clamped at
0, the outsourced percentage as the average of `100·(required − x)/required`
clamped at 0, and the in-house count as the unclamped average of
`demand·x/required`. -/
theorem parcel_estimates_avg (i : InstanceData) (xv : ℚ) (a θ : Nat)
    (h : scenariosWithDemand i a θ ≠ []) :
    parcelStats i xv a θ = some
      (max (((scenariosWithDemand i a θ).map (fun s =>
         (i.srequired s a θ - xv) * i.sdemand s a θ / i.srequired s a θ)).sum /
         ((scenariosWithDemand i a θ).length : ℚ)) 0,
       max (((scenariosWithDemand i a θ).map (fun s =>
         100 * (i.srequired s a θ - xv) / i.srequired s a θ)).sum /
         ((scenariosWithDemand i a θ).length : ℚ)) 0,
       ((scenariosWithDemand i a θ).map (fun s =>
         i.sdemand s a θ * xv / i.srequired s a θ)).sum /
         ((scenariosWithDemand i a θ).length : ℚ)) :=
  parcelStats_avg_eq i xv a θ h

/-- Witness for C7 on the two-scenario sample instance. -/
theorem parcel_estimates_avg_witness :
    scenariosWithDemand instOne 0 0 ≠ [] ∧
    parcelStats instOne 0 0 0 = some
      (max (((scenariosWithDemand instOne 0 0).map (fun s =>
         (instOne.srequired s 0 0 - 0) * instOne.sdemand s 0 0 /
           instOne.srequired s 0 0)).sum /
         ((scenariosWithDemand instOne 0 0).length : ℚ)) 0,
       max (((scenariosWithDemand instOne 0 0).map (fun s =>
         100 * (instOne.srequired s 0 0 - 0) / instOne.srequired s 0 0)).sum /
         ((scenariosWithDemand instOne 0 0).length : ℚ)) 0,
       ((scenariosWithDemand instOne 0 0).map (fun s =>
         instOne.sdemand s 0 0 * 0 / instOne.srequired s 0 0)).sum /
         ((scenariosWithDemand instOne 0 0).length : ℚ)) :=
  ⟨by decide, parcel_estimates_avg instOne 0 0 0 (by decide)⟩

/-- C8: for every area and period where no scenario has positive required
couriers, extraction reports exactly 0 for the outsourced parcel count, the
outsourced percentage and the in-house parcel count, and performs no
division (it cannot raise a `ZeroDivisionError` there). -/
theorem parcel_estimates_zero_required (i : InstanceData) (xv : ℚ) (a θ : Nat)
    (h : ∀ s < i.n_scenarios, ¬ 0 < i.srequired s a θ) :
    parcelStats i xv a θ = some (0, 0, 0) := by
  apply parcelStats_empty_eq
  unfold scenariosWithDemand
  rw [List.filter_eq_nil_iff]
  intro s hs
  simpa using h s (List.mem_range.mp hs)

/-- Witness for C8 on the all-zero sample instance. -/
theorem parcel_estimates_zero_required_witness :
    (∀ s < instZero.n_scenarios, ¬ 0 < instZero.srequired s 0 0) ∧
    parcelStats instZero 5 0 0 = some (0, 0, 0) :=
  ⟨by decide, parcel_estimates_zero_required instZero 5 0 0 (by decide)⟩

/-- C9: the hired-percentage computations of `__basic_results` divide by
`ub_reg[region] × n_periods` and `ub_global × n_periods` with no zero guard,
so on every instance with a zero regional bound (or zero global bound)
extraction of a solved model raises a `ZeroDivisionError` instead of
returning a results record — and such instances are reachable from instance
derivation, whose bounds are floors of multiplier-scaled demand means. -/
theorem hired_pct_zero_bound_div_error (i : InstanceData) (x : Nat → Nat → ℚ)
    (objVal : ℚ)
    (h : (∃ r ∈ i.regions, i.ub_reg r = 0) ∨ i.ub_global = 0) :
    basicResults i x objVal = none ∧
    ∃ (kw : Kwargs) (raw : RawInstance) (j : InstanceData),
      Instance.computeData none kw raw = Except.ok j ∧
      (∃ r ∈ j.regions, j.ub_reg r = 0) ∧ j.ub_global = 0 := by
  constructor
  · obtain ⟨pstats, hps⟩ := Option.isSome_iff_exists.mp (areaStats_isSome i x)
    unfold basicResults
    rw [hps]
    rcases h with ⟨r, hr, h0⟩ | h0
    · rw [regPcts_none_of_zero hr (by rw [h0]; simp)]
    · cases hrp : regPcts i x with
      | none => rfl
      | some rp =>
        have hden : ((i.ub_global : ℚ) * (i.n_periods : ℚ)) = 0 := by
          rw [h0]
          simp
        simp [qdivOpt, hden]
  · exact ⟨kwBase, rawZero, instZero, rfl,
      ⟨0, by decide, instZero_ub_reg 0⟩, instZero_ub_global⟩

/-- Witness for C9 on the derived all-zero sample instance. -/
theorem hired_pct_zero_bound_div_error_witness :
    ((∃ r ∈ instZero.regions, instZero.ub_reg r = 0) ∨
       instZero.ub_global = 0) ∧
    basicResults instZero zfun2 0 = none :=
  ⟨Or.inl ⟨0, by decide, instZero_ub_reg 0⟩,
   (hired_pct_zero_bound_div_error instZero zfun2 0
     (Or.inl ⟨0, by decide, instZero_ub_reg 0⟩)).1⟩

end LMD
